import Mathlib

/-!
Verification of the compile-time type algebra of the CCCL fragment:
the thrust commutativity trait registry, the libcudacxx transparent-functor
detection, the integral constraint checker used by numeric functions, and
the duration common-type / conversion / modulo rules.

Compile-time C++ facts are embedded shallowly: template instantiations
become total Lean functions over an inductive model of C++ types; an
ill-formed program (a failed instantiation) is `none` / `Except.error`.
-/

namespace CCCL

/-- Model of the C++ fundamental (and a few compound) operand types that the
traits in this fragment inspect.  `userType` stands for an arbitrary
user-defined class type, `pointer` for any pointer type. -/
inductive CType where
  | bool_t
  | char_t
  | schar_t
  | uchar_t
  | short_t
  | ushort_t
  | int_t
  | uint_t
  | long_t
  | ulong_t
  | llong_t
  | ullong_t
  | float_t
  | double_t
  | ldouble_t
  | void_t
  | pointer (t : CType)
  | userType (id : Nat)
deriving DecidableEq

/-- Modelled from the spec: the standard integral-type predicate
(`is_integral`): true for `bool`, the character types and the signed and
unsigned integer types; false for floating types, `void`, pointers and
user-defined types. -/
def is_integral : CType → Bool
  | .bool_t | .char_t | .schar_t | .uchar_t | .short_t | .ushort_t
  | .int_t | .uint_t | .long_t | .ulong_t | .llong_t | .ullong_t => true
  | _ => false

/-- Modelled from the spec: the floating-point-type predicate
(`is_floating_point`). -/
def is_floating_point : CType → Bool
  | .float_t | .double_t | .ldouble_t => true
  | _ => false

/-- Modelled from the spec: `thrust::detail::is_arithmetic`, the standard
arithmetic-type predicate — "covers built-in integer and floating types;
excludes user-defined types, pointers, and non-arithmetic built-ins". -/
def is_arithmetic (t : CType) : Bool :=
  is_integral t || is_floating_point t

/-- A binary functor type as seen by the thrust commutativity registry:
the nine functor templates named in the partial specializations of
`is_commutative`, each applied to an operand type, plus `otherFunctor`
standing for any other (unregistered) functor type. -/
inductive ThrustFunctor where
  | plus (t : CType)
  | multiplies (t : CType)
  | minimum (t : CType)
  | maximum (t : CType)
  | logical_or (t : CType)
  | logical_and (t : CType)
  | bit_or (t : CType)
  | bit_and (t : CType)
  | bit_xor (t : CType)
  | otherFunctor (id : Nat)
deriving DecidableEq

/-- `thrust::detail::is_commutative` from
`src/thrust/thrust/detail/type_traits/is_commutative.h`: the primary
template derives from `false_type`; each of the nine partial
specializations derives from `is_arithmetic<T>`. -/
def is_commutative : ThrustFunctor → Bool
  | .plus t => is_arithmetic t
  | .multiplies t => is_arithmetic t
  | .minimum t => is_arithmetic t
  | .maximum t => is_arithmetic t
  | .logical_or t => is_arithmetic t
  | .logical_and t => is_arithmetic t
  | .bit_or t => is_arithmetic t
  | .bit_and t => is_arithmetic t
  | .bit_xor t => is_arithmetic t
  | .otherFunctor _ => false

/-- The spec-side enumeration used by claim C1: `F` is one of the nine
registered functor templates applied to operand type `t`. -/
def registeredCommutative (F : ThrustFunctor) (t : CType) : Prop :=
  F = .plus t ∨ F = .multiplies t ∨ F = .minimum t ∨ F = .maximum t ∨
  F = .logical_or t ∨ F = .logical_and t ∨ F = .bit_or t ∨
  F = .bit_and t ∨ F = .bit_xor t

/-- A possibly cv-qualified C++ type, as passed to the integral constraint
checker (claim C3 requires rejecting `bool` "even cv-qualified"). -/
structure CVType where
  ty : CType
  isConst : Bool
  isVolatile : Bool
deriving DecidableEq

/-- Modelled from the spec: the integral constraint checker of
`cuda::std::gcd` (the implementation is not in the sampled sources, only
its compile-fail test) — "the program is ill-formed if either operand type
is not an integer type, or if either operand type is `bool` (even
cv-qualified)".  Cv-qualifiers are ignored: only the underlying type is
inspected. -/
def gcd_wellFormed (m n : CVType) : Bool :=
  is_integral m.ty && is_integral n.ty &&
    !(m.ty == CType.bool_t) && !(n.ty == CType.bool_t)

/-- Modelled from the spec: `cuda::std::gcd`, staged as the compile-time
constraint check followed by the value computation; `none` models an
ill-formed program (compilation failure, independent of operand values). -/
def cuda_std_gcd (mt nt : CVType) (m n : ℤ) : Option ℕ :=
  if gcd_wellFormed mt nt then some (Int.gcd m n) else none

/-- Compile-time rational period (ticks per unit), as in the spec's data
model: positive numerator, positive denominator, always in lowest terms. -/
structure Period where
  num : ℕ
  den : ℕ
  num_pos : 0 < num
  den_pos : 0 < den
  reduced : Nat.Coprime num den

/-- `ratio<1, 1>` (the default duration period, seconds). -/
def periodUnit : Period := ⟨1, 1, Nat.one_pos, Nat.one_pos, Nat.coprime_one_left 1⟩

/-- `milli = ratio<1, 1000>`. -/
def periodMilli : Period := ⟨1, 1000, Nat.one_pos, by norm_num, Nat.coprime_one_left 1000⟩

/-- `ratio<1, 2>`. -/
def periodHalf : Period := ⟨1, 2, Nat.one_pos, by norm_num, Nat.coprime_one_left 2⟩

/-- `ratio<1, 3>`. -/
def periodThird : Period := ⟨1, 3, Nat.one_pos, by norm_num, Nat.coprime_one_left 3⟩

/-- Strict comparison of periods as rationals; `periodLT p q` says `p` is a
finer (smaller) tick than `q`. -/
def periodLT (p q : Period) : Prop :=
  p.num * q.den < q.num * p.den

instance (p q : Period) : Decidable (periodLT p q) := by
  unfold periodLT
  infer_instance

/-- Modelled from the spec (4.1): the common period of two periods — the
greatest common rational sub-unit, `ratio` of the numerators' gcd over the
denominators' lcm, reduced to lowest terms. -/
def commonPeriod (p q : Period) : Period :=
  let n := Nat.gcd p.num q.num
  let d := Nat.lcm p.den q.den
  have hn : 0 < n := Nat.gcd_pos_of_pos_left q.num p.num_pos
  have hd : 0 < d := Nat.lcm_pos p.den_pos q.den_pos
  have hg : 0 < Nat.gcd n d := Nat.gcd_pos_of_pos_left d hn
  { num := n / Nat.gcd n d
    den := d / Nat.gcd n d
    num_pos := Nat.div_pos (Nat.le_of_dvd hn (Nat.gcd_dvd_left n d)) hg
    den_pos := Nat.div_pos (Nat.le_of_dvd hd (Nat.gcd_dvd_right n d)) hg
    reduced := Nat.coprime_div_gcd_div_gcd hg }

/-- Representation kinds of a duration tick count: built-in integer types
(width, signedness), built-in floating types (width), or a user-defined
representation class. -/
inductive RepKind where
  | intRep (width : Nat) (signed : Bool)
  | floatRep (width : Nat)
  | userRep (id : Nat)
deriving DecidableEq

def isIntegralRep : RepKind → Bool
  | .intRep _ _ => true
  | _ => false

def isFloatingRep : RepKind → Bool
  | .floatRep _ => true
  | _ => false

/-- Modelled from the spec (4.2): representation promotion — "floating-point
representation dominates integer representation; among integers,
wider/more precise dominates; among floats, higher precision dominates".
Distinct user-defined representations have no common type (`none`). -/
def commonRep : RepKind → RepKind → Option RepKind
  | .floatRep w1, .floatRep w2 => some (.floatRep (max w1 w2))
  | .floatRep w, .intRep _ _ => some (.floatRep w)
  | .intRep _ _, .floatRep w => some (.floatRep w)
  | .intRep w1 s1, .intRep w2 s2 =>
    if w2 < w1 then some (.intRep w1 s1)
    else if w1 < w2 then some (.intRep w2 s2)
    else some (.intRep w1 (s1 && s2))
  | .userRep i, .userRep j => if i = j then some (.userRep i) else none
  | _, _ => none

/-- A duration type: a (representation, period) pair. -/
structure DurationTy where
  rep : RepKind
  period : Period

/-- Modelled from the spec (4.2): the common duration type of two duration
types — promoted representation, common period. -/
def commonDurationTy (a b : DurationTy) : Option DurationTy :=
  match commonRep a.rep b.rep with
  | some r => some ⟨r, commonPeriod a.period b.period⟩
  | none => none

/-- Does the source period equal an integer multiple of the target period
(so that integer tick counts convert with no precision loss)?  For
`ps = ns/ds` and `pt = nt/dt` this is `(nt * ds) ∣ (ns * dt)`. -/
def isIntegerMultipleOf (ps pt : Period) : Bool :=
  (ps.num * pt.den) % (pt.num * ps.den) == 0

/-- Modelled from the spec (4.2): legality of the implicit duration
conversion constructor, converting a source duration type into a target
duration type — allowed when the target representation is floating point,
or when both representations are integral and the source period is an
exact integer multiple of the target period. -/
def convertAllowed (target source : DurationTy) : Bool :=
  isFloatingRep target.rep ||
    (isIntegralRep target.rep && isIntegralRep source.rep &&
      isIntegerMultipleOf source.period target.period)

/-- Modelled from the spec (4.3): the exact rational value of a tick count
`c` of period `ps` re-expressed in period `pt` (`c * ps / pt`). -/
def convertCountQ (ps pt : Period) (c : ℚ) : ℚ :=
  c * (((ps.num : ℚ) * (pt.den : ℚ)) / ((ps.den : ℚ) * (pt.num : ℚ)))

/-- Modelled from the spec (4.3): explicit conversion (`duration_cast`) of
an integer tick count, defined for every pair of periods; truncates via
integer division when the ratio does not divide evenly. -/
def explicitCastCount (ps pt : Period) (c : ℤ) : ℤ :=
  (c * (ps.num * pt.den : ℕ)) / ((ps.den * pt.num : ℕ) : ℤ)

/-- Modelled from the spec (4.3): storing a rational value into a `double`
is exact exactly when "the floating type's mantissa covers the scaled
integer value" — an integer of magnitude at most `2 ^ 53`.  `none` models
the inexact cases, which are outside this model's scope. -/
def storeDouble (q : ℚ) : Option ℚ :=
  if q.den = 1 ∧ q.num.natAbs ≤ 2 ^ 53 then some q else none

/-- Modelled from the spec (4.3): the compile-time legality of
duration-modulo-by-scalar — "defined only when the duration's
representation is integral", and rejected when the common type with the
scalar's representation is not integral. -/
def modByScalarWellFormed (rep srep : RepKind) : Bool :=
  isIntegralRep rep && isIntegralRep srep &&
    (match commonRep rep srep with
     | some r => isIntegralRep r
     | none => false)

/-- Modelled from the spec (4.3): `duration<Rep>(v) % s`, staged as the
compile-time check followed by the value computation; `none` models an
ill-formed program (a type-constraint failure decided before any value is
consulted). -/
def durationModScalar (rep : RepKind) (v : ℤ) (srep : RepKind) (s : ℤ) : Option ℤ :=
  if modByScalarWellFormed rep srep then some (v % s) else none

/-- The four bitwise functor families of the transparent-functor test. -/
inductive BitwiseFamily where
  | fam_and
  | fam_or
  | fam_xor
  | fam_not
deriving DecidableEq

/-- A bitwise functor type `family<operand>`; `void_t` as operand is the
unbound/default-templated form (`bit_and<>` is `bit_and<void>`). -/
structure BitwiseFunctor where
  family : BitwiseFamily
  operand : CType
deriving DecidableEq

/-- Modelled from the spec (4.6): the optional nested
`is_transparent` marker type of a bitwise functor — present exactly on the
unbound/void form, absent on every form bound to a concrete operand
type. -/
def nestedTransparentMarker (f : BitwiseFunctor) : Option Unit :=
  if f.operand = CType.void_t then some () else none

/-- The SFINAE probe of the transparent test
(`transparent.pass.cpp`): overload resolution picks the
`char`-returning `test` (sizeof 1) when `U::is_transparent` names a type,
and the `two`-returning fallback (sizeof 2) otherwise. -/
def sfinaeSizeof (marker : Option Unit) : Nat :=
  match marker with
  | some _ => 1
  | none => 2

/-- `is_transparent<T>::value` from the transparent test:
`sizeof(test<T>(0)) == 1`. -/
def is_transparent_value (f : BitwiseFunctor) : Bool :=
  sfinaeSizeof (nestedTransparentMarker f) == 1

/-- The detection query as a compile-time computation that can in principle
signal ill-formedness; the SFINAE idiom never does, so the result is always
`Except.ok`. -/
def transparentQuery (f : BitwiseFunctor) : Except Unit Bool :=
  Except.ok (is_transparent_value f)

/-! ## Theorems -/

theorem Period.ext_iff {p q : Period} : p = q ↔ p.num = q.num ∧ p.den = q.den := by
  constructor
  · intro h
    rw [h]
    exact ⟨rfl, rfl⟩
  · intro ⟨h1, h2⟩
    cases p
    cases q
    simp only at h1 h2
    subst h1
    subst h2
    rfl

/-- Claim C1: `is_commutative F` reports true exactly when `F` is one of the
nine registered functor templates (`plus`, `multiplies`, `minimum`,
`maximum`, `logical_or`, `logical_and`, `bit_or`, `bit_and`, `bit_xor`)
applied to an arithmetic operand type; for every other functor type the
unspecialized default answer is false. -/
theorem is_commutative_characterization :
    ∀ F : ThrustFunctor,
      is_commutative F = true ↔ ∃ t, registeredCommutative F t ∧ is_arithmetic t = true := by
  intro F
  cases F <;> simp [is_commutative, registeredCommutative]

/-- Claim C9: every one of the nine registered specializations reports
non-commutative for a non-arithmetic operand type; in particular the
unbound/transparent forms such as `plus<void>` and `bit_and<void>` are
classified non-commutative, since `void` is not arithmetic. -/
theorem registered_nonArithmetic_not_commutative :
    ∀ t : CType, is_arithmetic t = false →
      ∀ F : ThrustFunctor, registeredCommutative F t → is_commutative F = false := by
  intro t h F hr
  rcases hr with h1 | h1 | h1 | h1 | h1 | h1 | h1 | h1 | h1 <;>
    subst h1 <;> simp [is_commutative, h]

theorem registered_nonArithmetic_not_commutative_witness :
    is_arithmetic CType.void_t = false ∧
    is_commutative (ThrustFunctor.plus CType.void_t) = false ∧
    is_commutative (ThrustFunctor.bit_and CType.void_t) = false :=
  ⟨by decide,
   registered_nonArithmetic_not_commutative CType.void_t (by decide) _
     (Or.inl rfl),
   registered_nonArithmetic_not_commutative CType.void_t (by decide) _
     (Or.inr (Or.inr (Or.inr (Or.inr (Or.inr (Or.inr (Or.inr (Or.inl rfl))))))))⟩

/-- Claim C10: for operand type `bool`, all nine registered functors are
reported commutative (`bool` is arithmetic); the commutativity registry
carries no `bool` exclusion, in contrast to the gcd integral constraint
checker, which rejects `bool` operands. -/
theorem bool_operand_commutative :
    is_arithmetic CType.bool_t = true ∧
    is_commutative (ThrustFunctor.plus CType.bool_t) = true ∧
    is_commutative (ThrustFunctor.multiplies CType.bool_t) = true ∧
    is_commutative (ThrustFunctor.minimum CType.bool_t) = true ∧
    is_commutative (ThrustFunctor.maximum CType.bool_t) = true ∧
    is_commutative (ThrustFunctor.logical_or CType.bool_t) = true ∧
    is_commutative (ThrustFunctor.logical_and CType.bool_t) = true ∧
    is_commutative (ThrustFunctor.bit_or CType.bool_t) = true ∧
    is_commutative (ThrustFunctor.bit_and CType.bool_t) = true ∧
    is_commutative (ThrustFunctor.bit_xor CType.bool_t) = true ∧
    gcd_wellFormed ⟨CType.bool_t, false, false⟩ ⟨CType.bool_t, false, false⟩ = false := by
  decide

/-- Claim C2: for each of the four bitwise functor families, the
`is_transparent` query is false for every form bound to a concrete operand
type and true for the unbound/void-parameterized form. -/
theorem bitwise_transparent_iff_unbound :
    (∀ (fam : BitwiseFamily) (t : CType), t ≠ CType.void_t →
      is_transparent_value ⟨fam, t⟩ = false) ∧
    (∀ fam : BitwiseFamily, is_transparent_value ⟨fam, CType.void_t⟩ = true) := by
  constructor
  · intro fam t ht
    simp [is_transparent_value, nestedTransparentMarker, sfinaeSizeof, ht]
  · intro fam
    simp [is_transparent_value, nestedTransparentMarker, sfinaeSizeof]

theorem bitwise_transparent_iff_unbound_witness :
    (CType.int_t ≠ CType.void_t ∧
      is_transparent_value ⟨BitwiseFamily.fam_and, CType.int_t⟩ = false) ∧
    is_transparent_value ⟨BitwiseFamily.fam_and, CType.void_t⟩ = true :=
  ⟨⟨by decide, bitwise_transparent_iff_unbound.1 BitwiseFamily.fam_and CType.int_t (by decide)⟩,
   bitwise_transparent_iff_unbound.2 BitwiseFamily.fam_and⟩

/-- Claim C7: the transparent-functor detection query always produces a
boolean result and never signals ill-formedness; when the functor has no
nested marker type, substitution failure silently yields false. -/
theorem transparent_detection_total :
    ∀ f : BitwiseFunctor,
      (∃ b : Bool, transparentQuery f = Except.ok b) ∧
      (nestedTransparentMarker f = none → transparentQuery f = Except.ok false) := by
  intro f
  refine ⟨⟨is_transparent_value f, rfl⟩, ?_⟩
  intro h
  simp [transparentQuery, is_transparent_value, h, sfinaeSizeof]

theorem transparent_detection_total_witness :
    nestedTransparentMarker ⟨BitwiseFamily.fam_or, CType.int_t⟩ = none ∧
    transparentQuery ⟨BitwiseFamily.fam_or, CType.int_t⟩ = Except.ok false :=
  ⟨by simp [nestedTransparentMarker],
   (transparent_detection_total ⟨BitwiseFamily.fam_or, CType.int_t⟩).2
     (by simp [nestedTransparentMarker])⟩

/-- Claim C3: calling gcd with an operand whose type is `bool` (even
cv-qualified) or not an integer type is ill-formed at compile time, for
every operand value. -/
theorem gcd_rejects_bool_and_nonInteger :
    ∀ (mt nt : CVType) (m n : ℤ),
      (mt.ty = CType.bool_t ∨ nt.ty = CType.bool_t ∨
       is_integral mt.ty = false ∨ is_integral nt.ty = false) →
      cuda_std_gcd mt nt m n = none := by
  intro mt nt m n h
  have hw : gcd_wellFormed mt nt = false := by
    unfold gcd_wellFormed
    rcases h with h | h | h | h <;> simp [h]
  simp [cuda_std_gcd, hw]

theorem gcd_rejects_bool_and_nonInteger_witness :
    (CVType.mk CType.bool_t true false).ty = CType.bool_t ∧
    cuda_std_gcd ⟨CType.int_t, false, false⟩ ⟨CType.bool_t, true, false⟩ 2 1 = none ∧
    cuda_std_gcd ⟨CType.int_t, false, false⟩ ⟨CType.bool_t, true, false⟩ 2 0 = none :=
  ⟨rfl,
   gcd_rejects_bool_and_nonInteger _ _ 2 1 (Or.inr (Or.inl rfl)),
   gcd_rejects_bool_and_nonInteger _ _ 2 0 (Or.inr (Or.inl rfl))⟩

/-- Claim C4: duration modulo by a scalar is rejected at compile time
whenever the duration's representation is one for which modulo is
disallowed (not integral); the rejection is a pure function of the types
and holds for every operand value — never a runtime error. -/
theorem mod_nonIntegral_rep_illFormed :
    ∀ r sr : RepKind, isIntegralRep r = false →
      ∀ v s : ℤ, durationModScalar r v sr s = none := by
  intro r sr h v s
  have hw : modByScalarWellFormed r sr = false := by
    simp [modByScalarWellFormed, h]
  simp [durationModScalar, hw]

theorem mod_nonIntegral_rep_illFormed_witness :
    isIntegralRep (RepKind.userRep 0) = false ∧
    durationModScalar (RepKind.userRep 0) 15 (RepKind.intRep 32 true) 5 = none :=
  ⟨by decide, mod_nonIntegral_rep_illFormed _ _ (by decide) 15 5⟩

/-- Claim C5: converting `duration<int>(3)` into `duration<double, milli>`
is implicitly allowed and yields a tick count of exactly 3000; in general
the stored floating value is exactly the scaled rational value whenever the
mantissa covers it. -/
theorem int_to_float_conversion_exact :
    convertAllowed ⟨RepKind.floatRep 64, periodMilli⟩ ⟨RepKind.intRep 32 true, periodUnit⟩ = true ∧
    convertCountQ periodUnit periodMilli 3 = 3000 ∧
    storeDouble (convertCountQ periodUnit periodMilli 3) = some 3000 ∧
    (∀ q : ℚ, q.den = 1 → q.num.natAbs ≤ 2 ^ 53 → storeDouble q = some q) := by
  have hval : convertCountQ periodUnit periodMilli 3 = 3000 := by
    norm_num [convertCountQ, periodUnit, periodMilli]
  refine ⟨by decide, hval, ?_, ?_⟩
  · rw [hval]
    simp [storeDouble]
  · intro q h1 h2
    have h2' : q.num.natAbs ≤ 9007199254740992 := le_trans h2 (by norm_num)
    simp [storeDouble, h1, h2']

theorem int_to_float_conversion_exact_witness :
    (42 : ℚ).den = 1 ∧ (42 : ℚ).num.natAbs ≤ 2 ^ 53 ∧ storeDouble 42 = some 42 :=
  ⟨by norm_num, by norm_num,
   int_to_float_conversion_exact.2.2.2 42 (by norm_num) (by norm_num)⟩

/-- Claim C8: the common-type resolver is idempotent — resolving the common
type of a (representation, period) pair with itself yields the pair
unchanged. -/
theorem common_type_idempotent :
    ∀ (r : RepKind) (p : Period), commonDurationTy ⟨r, p⟩ ⟨r, p⟩ = some ⟨r, p⟩ := by
  intro r p
  have hrep : commonRep r r = some r := by
    cases r with
    | intRep w s => simp [commonRep]
    | floatRep w => simp [commonRep]
    | userRep i => simp [commonRep]
  have h1 : Nat.gcd p.num p.num = p.num := Nat.gcd_self p.num
  have h2 : Nat.lcm p.den p.den = p.den := Nat.lcm_self p.den
  have h3 : Nat.gcd p.num p.den = 1 := p.reduced
  have hper : commonPeriod p p = p := by
    rw [Period.ext_iff]
    constructor <;> simp [commonPeriod, h1, h2, h3]
  simp [commonDurationTy, hrep, hper]

/-- Claim C6 counterexample: converting between integer-represented
durations toward a strictly finer period is NOT always allowed — with
source period 1/2 and finer target period 1/3, the ratio 3/2 is not an
integer, so the implicit conversion is rejected even though the target is
finer. -/
theorem int_finer_conversion_not_always_allowed :
    periodLT periodThird periodHalf ∧
    isIntegralRep (RepKind.intRep 32 true) = true ∧
    convertAllowed ⟨RepKind.intRep 32 true, periodThird⟩
      ⟨RepKind.intRep 32 true, periodHalf⟩ = false := by
  refine ⟨by decide, by decide, by decide⟩

/-- Claim C6 (amended): for integer-represented durations, the implicit
conversion from source period `ps` into target period `pt` is allowed
exactly when `ps` is an exact integer multiple of `pt`; in particular the
truncating (coarsening) direction, where the source period is strictly
finer than the target, is always rejected at the type level, while the
explicit cast remains available for every period pair. -/
theorem int_conversion_allowed_iff_multiple :
    ∀ r1 r2 : RepKind, isIntegralRep r1 = true → isIntegralRep r2 = true →
      ∀ pt ps : Period,
        (convertAllowed ⟨r1, pt⟩ ⟨r2, ps⟩ = isIntegerMultipleOf ps pt) ∧
        (periodLT ps pt → convertAllowed ⟨r1, pt⟩ ⟨r2, ps⟩ = false) := by
  intro r1 r2 h1 h2 pt ps
  have hf1 : isFloatingRep r1 = false := by
    cases r1 <;> simp_all [isIntegralRep, isFloatingRep]
  have hmain : convertAllowed ⟨r1, pt⟩ ⟨r2, ps⟩ = isIntegerMultipleOf ps pt := by
    simp [convertAllowed, hf1, h1, h2]
  refine ⟨hmain, ?_⟩
  intro hlt
  have hpos : 0 < ps.num * pt.den := Nat.mul_pos ps.num_pos pt.den_pos
  have hmod : (ps.num * pt.den) % (pt.num * ps.den) = ps.num * pt.den :=
    Nat.mod_eq_of_lt hlt
  rw [hmain]
  unfold isIntegerMultipleOf
  rw [hmod]
  simp only [beq_eq_false_iff_ne, ne_eq]
  omega

theorem int_conversion_allowed_iff_multiple_witness :
    isIntegralRep (RepKind.intRep 32 true) = true ∧
    convertAllowed ⟨RepKind.intRep 32 true, periodMilli⟩
      ⟨RepKind.intRep 32 true, periodUnit⟩ = isIntegerMultipleOf periodUnit periodMilli ∧
    isIntegerMultipleOf periodUnit periodMilli = true :=
  ⟨by decide,
   (int_conversion_allowed_iff_multiple _ _ (by decide) (by decide) periodMilli periodUnit).1,
   by decide⟩

end CCCL
